import Mathlib

/-!
Verification of the analytics and insight-generation engine of a personal
budget tracker (analytics.py), against its natural-language specification.

The transaction table is embedded as a list of records; pandas aggregation
calls are embedded as list operations; float arithmetic on amounts is
embedded as exact rational arithmetic.  The comparison
amount > mean + 2 * std (with std the square root of the sample variance)
is embedded in the equivalent squared form
amount > mean and (amount - mean)^2 > 4 * variance, which avoids square
roots while agreeing with the real-number semantics, since the variance is
a sum of squares over a positive count and hence nonnegative.

The ambient current date read by the budget rule (date.today in the code)
is passed as an explicit argument.
-/

/-- A calendar date (proleptic Gregorian).  The code parses dates with
pandas; valid dates built by parseDate always satisfy the usual bounds. -/
structure Date where
  year : Nat
  month : Nat
  day : Nat
deriving DecidableEq

/-- Gregorian leap-year rule. -/
def isLeap (y : Nat) : Bool :=
  (y % 4 == 0 && y % 100 != 0) || y % 400 == 0

/-- Days in a month of a given year. -/
def monthLen (y m : Nat) : Nat :=
  if m = 2 then (if isLeap y then 29 else 28)
  else if m = 4 ∨ m = 6 ∨ m = 9 ∨ m = 11 then 30
  else 31

/-- Cumulative day count before month m in a non-leap year. -/
def monthOffset (m : Nat) : Nat :=
  match m with
  | 1 => 0 | 2 => 31 | 3 => 59 | 4 => 90 | 5 => 120 | 6 => 151
  | 7 => 181 | 8 => 212 | 9 => 243 | 10 => 273 | 11 => 304 | _ => 334

/-- Days before month m of year y, with the leap-day adjustment. -/
def daysBeforeMonth (y m : Nat) : Nat :=
  monthOffset m + (if 2 < m ∧ isLeap y then 1 else 0)

/-- Rata-die day number: 0001-01-01 is day 1. -/
def dayNumber (d : Date) : Nat :=
  let y := d.year - 1
  365 * y + y / 4 - y / 100 + y / 400 + daysBeforeMonth d.year d.month + d.day

/-- Weekday with Monday = 0, Sunday = 6 (pandas dt.dayofweek). -/
def wday (d : Date) : Nat :=
  (dayNumber d + 6) % 7

/-- Number of days from a to b, as computed on pandas timestamps. -/
def gapDays (a b : Date) : Int :=
  (dayNumber b : Int) - (dayNumber a : Int)

/-- The year-month bucket, encoding the strftime string YYYY-MM as
year * 100 + month; equality and ordering of the encodings agree with
those of the strings for calendar dates. -/
def ymD (d : Date) : Nat :=
  d.year * 100 + d.month

/-- Transaction type; the code stores the strings income / expense. -/
inductive TxType where
  | income
  | expense
deriving DecidableEq

/-- A parsed transaction row of the table built by
transactions_to_dataframe, with its derived columns (year_month, weekday)
recomputed on demand from the parsed date. -/
structure Txn where
  id : Nat
  date : Date
  typ : TxType
  amount : ℚ
  category : String
  payment_method : String
  memo : String
deriving DecidableEq

/-- year_month of a row. -/
def ymT (t : Txn) : Nat :=
  ymD t.date

/-- A budget entry (db.get_budgets row): month is the YYYY-MM bucket,
an empty category means a whole-period budget. -/
structure Budget where
  month : Nat
  category : String
  budget_amount : ℚ
deriving DecidableEq

/-- Insight severity, the type field of the produced dictionaries. -/
inductive IKind where
  | info
  | warning
  | success
  | error
deriving DecidableEq

/-- The message payload of an insight: one constructor per message
template of the code, carrying the numbers interpolated into the text. -/
inductive Msg where
  | noData
  | topCategory (cat : String) (pct amt : ℚ)
  | monthIncrease (month : Nat) (pct prev cur : ℚ)
  | monthDecrease (month : Nat) (pct : ℚ)
  | monthFlat (month : Nat) (pct : ℚ)
  | budgetExceeded (label : Option String) (budget spent pct : ℚ)
  | budgetApproaching (label : Option String) (pct remaining : ℚ)
  | outlier (d : Date) (cat : String) (amount mult : ℚ)
  | recurring (cat : String) (amount : ℚ)
  | saveGood (rate : ℚ)
  | saveMid (rate : ℚ)
  | saveNeg (deficit : ℚ)
deriving DecidableEq

/-- One generated insight dictionary. -/
structure Insight where
  kind : IKind
  icon : String
  msg : Msg
deriving DecidableEq

/-- A raw transaction record as supplied by the store, before the table
build parses its date string. -/
structure RawTx where
  id : Nat
  date : String
  typ : TxType
  amount : ℚ
  category : String
  payment_method : String
  memo : String
deriving DecidableEq

/-- Reads a nonempty all-digit character list as a number. -/
def digitsToNat (cs : List Char) : Option Nat :=
  if cs.isEmpty then none
  else if cs.all (fun c => c.isDigit) then
    some (cs.foldl (fun n c => n * 10 + (c.toNat - 48)) 0)
  else none

/-- Splits a character list on the dash character. -/
def splitDash (cs : List Char) : List (List Char) :=
  match cs with
  | [] => [[]]
  | c :: rest =>
    if c = '-' then [] :: splitDash rest
    else
      match splitDash rest with
      | g :: gs => (c :: g) :: gs
      | [] => [[c]]

/-- Parses an ISO YYYY-MM-DD date string into a calendar date, rejecting
anything that is not a valid Gregorian date; embeds the date parsing done
by pd.to_datetime on the ISO-formatted strings of the input interface. -/
def parseDate (s : String) : Option Date :=
  match splitDash s.data with
  | [ys, ms, ds] =>
    match digitsToNat ys, digitsToNat ms, digitsToNat ds with
    | some y, some m, some d =>
      if ys.length = 4 ∧ 1 ≤ m ∧ m ≤ 12 ∧ 1 ≤ d ∧ d ≤ monthLen y m then
        some ⟨y, m, d⟩
      else none
    | _, _, _ => none
  | _ => none

/-- The error raised when a date field cannot be parsed as a calendar
date (the DataFormatError of the specification; in the code the pandas
parse error propagates out of transactions_to_dataframe). -/
inductive DataFormatError where
  | badDate
deriving DecidableEq

/-- All-or-nothing traversal: some iff every element maps to some. -/
def mapOpt (f : α → Option β) : List α → Option (List β)
  | [] => some []
  | a :: l =>
    match f a with
    | none => none
    | some b =>
      match mapOpt f l with
      | none => none
      | some bs => some (b :: bs)

/-- Parses one raw record into a table row. -/
def parseTxn (r : RawTx) : Option Txn :=
  match parseDate r.date with
  | none => none
  | some d => some ⟨r.id, d, r.typ, r.amount, r.category, r.payment_method, r.memo⟩

/-- transactions_to_dataframe: builds the table, failing as a whole when
any date does not parse (pd.to_datetime raises on the first bad date and
no dataframe is produced). -/
def transactionsToDataframe (rs : List RawTx) : Except DataFormatError (List Txn) :=
  match mapOpt parseTxn rs with
  | some ts => Except.ok ts
  | none => Except.error DataFormatError.badDate

/-- First-appearance deduplication, as pandas Series.unique. -/
def uniqueAux [DecidableEq α] (seen : List α) : List α → List α
  | [] => []
  | a :: l => if a ∈ seen then uniqueAux seen l else a :: uniqueAux (a :: seen) l

/-- Distinct values of a list in order of first appearance. -/
def uniqueFirst [DecidableEq α] (l : List α) : List α :=
  uniqueAux [] l

/-- Sum of the amount column. -/
def sumA (l : List Txn) : ℚ :=
  (l.map (fun t => t.amount)).sum

/-- Mean of a list of rationals (the pandas mean). -/
def meanQ (l : List ℚ) : ℚ :=
  l.sum / (l.length : ℚ)

/-- Sample variance (pandas std uses ddof = 1, so the variance divides by
length - 1); only ever used on groups of at least 3 rows. -/
def sampleVar (l : List ℚ) : ℚ :=
  ((l.map (fun x => (x - meanQ l) ^ 2)).sum) / ((l.length - 1 : Nat) : ℚ)

/-- Lexicographic comparison of character lists by code point; embeds the
string order pandas uses when groupby sorts its keys. -/
def charListLe : List Char → List Char → Bool
  | [], _ => true
  | _ :: _, [] => false
  | a :: as', b :: bs' =>
    if a.toNat < b.toNat then true
    else if b.toNat < a.toNat then false
    else charListLe as' bs'

/-- The expense rows of the table. -/
def expenses (df : List Txn) : List Txn :=
  df.filter (fun t => decide (t.typ = TxType.expense))

/-- The income rows of the table. -/
def incomes (df : List Txn) : List Txn :=
  df.filter (fun t => decide (t.typ = TxType.income))

/-- Inclusive day span between the earliest and latest transaction date
of the whole table, the (df date max - df date min).days + 1 of
get_summary; 1 on the empty table (where the code never evaluates it). -/
def spanDays (df : List Txn) : Int :=
  match df.map (fun t => (dayNumber t.date : Int)) with
  | [] => 1
  | a :: l => (l.foldl max a - l.foldl min a) + 1

/-- Expense totals per category, sorted by amount descending, top 3; the
groupby enumerates categories in sorted key order, and the stable value
sort then orders by descending amount. -/
def topCats (e : List Txn) : List (String × ℚ) :=
  let cats := List.insertionSort (fun a b : String => charListLe a.data b.data = true)
    (uniqueFirst (e.map (fun t => t.category)))
  let sums := cats.map (fun c => (c, sumA (e.filter (fun t => decide (t.category = c)))))
  (List.insertionSort (fun a b : String × ℚ => b.2 ≤ a.2) sums).take 3

/-- The summary record computed by get_summary. -/
structure Summary where
  total_income : ℚ
  total_expense : ℚ
  net : ℚ
  daily_avg_expense : ℚ
  top_categories : List (String × ℚ)
  tx_count : Nat
  expense_count : Nat
  income_count : Nat
deriving DecidableEq

/-- get_summary. -/
def getSummary (df : List Txn) : Summary :=
  if df.isEmpty then ⟨0, 0, 0, 0, [], 0, 0, 0⟩
  else
    let inc := incomes df
    let e := expenses df
    let ti := sumA inc
    let te := sumA e
    let daily := if e.isEmpty then 0 else te / ((max (spanDays df) 1 : Int) : ℚ)
    let top := if e.isEmpty then [] else topCats e
    ⟨ti, te, ti - te, daily, top, df.length, e.length, inc.length⟩

/-- Mean expense amount of the rows falling on weekday w. -/
def weekdayMean (e : List Txn) (w : Nat) : ℚ :=
  meanQ ((e.filter (fun t => decide (wday t.date = w))).map (fun t => t.amount))

/-- The weekdays 0..6 in alphabetical order of their English day names
(Friday, Monday, Saturday, Sunday, Thursday, Tuesday, Wednesday), the
key order in which the pandas groupby emits its groups. -/
def alphaDayOrder : List Nat :=
  [4, 0, 5, 6, 3, 1, 2]

/-- get_expense_by_dayofweek: per-weekday mean expense amount; groups are
produced for the weekdays present among expense rows and then sorted by
the day_order column (Monday = 0 through Sunday = 6).  Rows are
(weekday, mean) pairs; the korean label column is presentation only. -/
def getExpenseByDayofweek (df : List Txn) : List (Nat × ℚ) :=
  let e := expenses df
  if e.isEmpty then []
  else
    let present := alphaDayOrder.filter
      (fun w => !(e.filter (fun t => decide (wday t.date = w))).isEmpty)
    let groups := present.map (fun w => (w, weekdayMean e w))
    List.insertionSort (fun a b : Nat × ℚ => a.1 ≤ b.1) groups

/-- Total expense amount of a year-month bucket. -/
def monthTotal (df : List Txn) (m : Nat) : ℚ :=
  sumA ((expenses df).filter (fun t => decide (ymT t = m)))

/-- The distinct expense year-months in ascending order (the index of the
sorted groupby series of _month_comparison_insight). -/
def sortedMonths (df : List Txn) : List Nat :=
  List.insertionSort (fun a b : Nat => a ≤ b) ((expenses df).map ymT).dedup

/-- _month_comparison_insight: compares the latest expense month against
the one before it. -/
def monthComparisonInsight (df : List Txn) : List Insight :=
  let e := expenses df
  if e.isEmpty then []
  else
    match (sortedMonths df).reverse with
    | cm :: pm :: _ =>
      let ca := monthTotal df cm
      let pa := monthTotal df pm
      if 0 < pa then
        let c := (ca - pa) / pa * 100
        if 20 < c then [⟨IKind.warning, "📈", Msg.monthIncrease cm c pa ca⟩]
        else if c < -10 then [⟨IKind.success, "📉", Msg.monthDecrease cm c⟩]
        else [⟨IKind.info, "➡️", Msg.monthFlat cm c⟩]
      else []
    | _ => []

/-- The label of a budget message: the category, or none for the
whole-period budget. -/
def budgetLabel (b : Budget) : Option String :=
  if b.category = "" then none else some b.category

/-- The body of the budget loop of _budget_warning_insights for one
budget entry, given the current-month expense rows. -/
def budgetOne (cur : List Txn) (cm : Nat) (b : Budget) : List Insight :=
  if b.month ≠ cm then []
  else
    let spent :=
      if b.category ≠ "" then sumA (cur.filter (fun t => decide (t.category = b.category)))
      else sumA cur
    let usage := if 0 < b.budget_amount then spent / b.budget_amount * 100 else 0
    if 100 ≤ usage then
      [⟨IKind.warning, "🚨", Msg.budgetExceeded (budgetLabel b) b.budget_amount spent usage⟩]
    else if 80 ≤ usage then
      [⟨IKind.warning, "⚠️", Msg.budgetApproaching (budgetLabel b) usage (b.budget_amount - spent)⟩]
    else []

/-- _budget_warning_insights with the current year-month bucket already
extracted from the ambient date. -/
def budgetWarningYM (df : List Txn) (budgets : List Budget) (cm : Nat) : List Insight :=
  let e := expenses df
  if e.isEmpty ∨ budgets.isEmpty then []
  else
    let cur := e.filter (fun t => decide (ymT t = cm))
    if cur.isEmpty then []
    else budgets.flatMap (budgetOne cur cm)

/-- _budget_warning_insights; the code reads date.today() here, embedded
as the explicit today argument. -/
def budgetWarningInsights (df : List Txn) (budgets : List Budget) (today : Date) : List Insight :=
  budgetWarningYM df budgets (ymD today)

/-- The outlier test amount > mean + 2 * std of _outlier_insights, in the
squared form valid for a nonnegative variance. -/
def outlierCond (amount m v : ℚ) : Prop :=
  m < amount ∧ 4 * v < (amount - m) ^ 2

instance (amount m v : ℚ) : Decidable (outlierCond amount m v) :=
  inferInstanceAs (Decidable (And _ _))

/-- _outlier_insights: per category of at least 3 expense rows with a
nonzero standard deviation, flag rows beyond mean + 2 * std whose ratio
to the mean is at least 2; at most 3 messages. -/
def outlierInsights (df : List Txn) : List Insight :=
  let e := expenses df
  if e.length < 5 then []
  else
    ((uniqueFirst (e.map (fun t => t.category))).flatMap (fun cat =>
      let cd := e.filter (fun t => decide (t.category = cat))
      if cd.length < 3 then []
      else
        let m := meanQ (cd.map (fun t => t.amount))
        let v := sampleVar (cd.map (fun t => t.amount))
        if v = 0 then []
        else
          (cd.filter (fun t => decide (outlierCond t.amount m v))).flatMap (fun t =>
            let r := t.amount / m
            if 2 ≤ r then [⟨IKind.info, "🔍", Msg.outlier t.date cat t.amount r⟩]
            else []))).take 3

/-- Stable sort of rows by date ascending (expense_df.sort_values). -/
def sortByDate (l : List Txn) : List Txn :=
  List.insertionSort (fun a b : Txn => dayNumber a.date ≤ dayNumber b.date) l

/-- The forward pairs scanned by the nested loops of
_recurring_expense_insights: for each index i, the pairs (i, j) with
i < j < min (i + 5, len), in loop order. -/
def forwardPairs : List Txn → List (Txn × Txn)
  | [] => []
  | a :: rest => (rest.take 4).map (fun b => (a, b)) ++ forwardPairs rest

/-- The deduplication key of a detected recurrence: the category with the
amount of the earlier row truncated down to the nearest 1000 (the
int(amt / 1000) * 1000 of the code; the guarded amount is positive, so
truncation toward zero is the floor). -/
def recKey (cat : String) (a : ℚ) : String × Int :=
  (cat, Int.floor (a / 1000) * 1000)

/-- The candidate test of the code loop: positive earlier amount, amount
difference within 20 percent of it, and a day gap of 25 to 35 days. -/
def recCond (a b : Txn) : Prop :=
  0 < a.amount ∧ |a.amount - b.amount| / a.amount ≤ 2/10 ∧
    25 ≤ gapDays a.date b.date ∧ gapDays a.date b.date ≤ 35

instance (a b : Txn) : Decidable (recCond a b) :=
  inferInstanceAs (Decidable (And _ _))

/-- One step of the recurrence scan, threading the set of already found
keys and the accumulated insights. -/
def recStep (acc : List (String × Int) × List Insight) (ev : String × Txn × Txn) :
    List (String × Int) × List Insight :=
  let (cat, a, b) := ev
  if recCond a b then
    let k := recKey cat a.amount
    if k ∈ acc.1 then acc
    else (k :: acc.1, acc.2 ++ [⟨IKind.info, "🔄", Msg.recurring cat a.amount⟩])
  else acc

/-- The (category, earlier, later) events scanned by
_recurring_expense_insights, in scan order: categories in order of first
appearance in the date-sorted expense rows, then the forward pairs of the
date-sorted rows of that category. -/
def recEvents (e : List Txn) : List (String × Txn × Txn) :=
  (uniqueFirst (e.map (fun t => t.category))).flatMap (fun cat =>
    let cd := e.filter (fun t => decide (t.category = cat))
    if cd.length < 2 then []
    else (forwardPairs cd).map (fun p => (cat, p.1, p.2)))

/-- _recurring_expense_insights. -/
def recurringInsights (df : List Txn) : List Insight :=
  let e := sortByDate (expenses df)
  if e.length < 4 then []
  else (((recEvents e).foldl recStep ([], [])).2).take 3

/-- The savings-rate commentary block at the end of generate_insights. -/
def savingsInsight (s : Summary) : List Insight :=
  if 0 < s.total_income ∧ 0 < s.total_expense then
    let rate := s.net / s.total_income * 100
    if 30 ≤ rate then [⟨IKind.success, "🎉", Msg.saveGood rate⟩]
    else if 10 ≤ rate then [⟨IKind.info, "💰", Msg.saveMid rate⟩]
    else if rate < 0 then [⟨IKind.warning, "🚨", Msg.saveNeg |s.net|⟩]
    else []
  else []

/-- The top-category notice at the start of generate_insights. -/
def topCategoryInsight (s : Summary) : List Insight :=
  match s.top_categories with
  | (cat, amt) :: _ =>
    let pct := if 0 < s.total_expense then amt / s.total_expense * 100 else 0
    [⟨IKind.info, "📊", Msg.topCategory cat pct amt⟩]
  | [] => []

/-- generate_insights: the full fixed pipeline.  The code reads
date.today() inside the budget rule; the embedding passes that ambient
date as the explicit argument today. -/
def generateInsights (df : List Txn) (budgets : List Budget) (today : Date) : List Insight :=
  if df.isEmpty then [⟨IKind.info, "ℹ️", Msg.noData⟩]
  else
    let s := getSummary df
    topCategoryInsight s ++ monthComparisonInsight df ++
      (if budgets.isEmpty then [] else budgetWarningInsights df budgets today) ++
      outlierInsights df ++ recurringInsights df ++ savingsInsight s

/-- The budget rule as the specification states it, per budget entry: for
a budget of the current calendar month, spent is the current-month
expense sum restricted to its category (the whole current-month total for
an empty category), usage_pct is spent / budget_amount * 100 (0 when the
budget amount is not positive), and exactly one warning is emitted when
usage_pct reaches 100 (exceeded) or 80 (approaching). -/
def specBudgetRule (df : List Txn) (today : Date) (b : Budget) : List Insight :=
  let cm := ymD today
  if b.month = cm then
    let cur := (expenses df).filter (fun t => decide (ymT t = cm))
    let spent :=
      if b.category = "" then sumA cur
      else sumA (cur.filter (fun t => decide (t.category = b.category)))
    let usage := if b.budget_amount ≤ 0 then 0 else spent / b.budget_amount * 100
    if 100 ≤ usage then
      [⟨IKind.warning, "🚨", Msg.budgetExceeded (budgetLabel b) b.budget_amount spent usage⟩]
    else if 80 ≤ usage then
      [⟨IKind.warning, "⚠️", Msg.budgetApproaching (budgetLabel b) usage (b.budget_amount - spent)⟩]
    else []
  else []

/-- The month-over-month insight as the claim states it, for the current
and previous expense months: change_pct is
(current total - previous total) / previous total * 100, and the kind is
warning above 20, success below -10, info otherwise. -/
def specMonthInsight (df : List Txn) (pm cm : Nat) : Insight :=
  let c := (monthTotal df cm - monthTotal df pm) / monthTotal df pm * 100
  if 20 < c then ⟨IKind.warning, "📈", Msg.monthIncrease cm c (monthTotal df pm) (monthTotal df cm)⟩
  else if c < -10 then ⟨IKind.success, "📉", Msg.monthDecrease cm c⟩
  else ⟨IKind.info, "➡️", Msg.monthFlat cm c⟩

/-- The weekday aggregate as the claim states it: for each weekday Monday
through Sunday in order, the mean expense amount of that weekday when any
expense row falls on it, and no row otherwise. -/
def specWeekdayRows (df : List Txn) : List (Nat × ℚ) :=
  (List.range 7).filterMap (fun w =>
    let g := (expenses df).filter (fun t => decide (wday t.date = w))
    if g.isEmpty then none else some (w, meanQ (g.map (fun t => t.amount))))

/-- The recurrence candidate test exactly as the claim words it: the
amount difference is within 20 percent of the earlier amount, and the day
gap lies in the inclusive range 25 to 35. -/
def claimRecCond (a b : Txn) : Prop :=
  |a.amount - b.amount| ≤ a.amount * (2/10) ∧
    25 ≤ gapDays a.date b.date ∧ gapDays a.date b.date ≤ 35

instance (a b : Txn) : Decidable (claimRecCond a b) :=
  inferInstanceAs (Decidable (And _ _))

/-- The claim candidate test amended with the positive-earlier-amount
guard that the code applies before dividing. -/
def amendedRecCond (a b : Txn) : Prop :=
  0 < a.amount ∧ |a.amount - b.amount| ≤ a.amount * (2/10) ∧
    25 ≤ gapDays a.date b.date ∧ gapDays a.date b.date ≤ 35

instance (a b : Txn) : Decidable (amendedRecCond a b) :=
  inferInstanceAs (Decidable (And _ _))

/-- The scan step under the candidate test as the claim words it. -/
def claimRecStep (acc : List (String × Int) × List Insight) (ev : String × Txn × Txn) :
    List (String × Int) × List Insight :=
  let (cat, a, b) := ev
  if claimRecCond a b then
    let k := recKey cat a.amount
    if k ∈ acc.1 then acc
    else (k :: acc.1, acc.2 ++ [⟨IKind.info, "🔄", Msg.recurring cat a.amount⟩])
  else acc

/-- The scan step under the amended candidate test. -/
def amendedRecStep (acc : List (String × Int) × List Insight) (ev : String × Txn × Txn) :
    List (String × Int) × List Insight :=
  let (cat, a, b) := ev
  if amendedRecCond a b then
    let k := recKey cat a.amount
    if k ∈ acc.1 then acc
    else (k :: acc.1, acc.2 ++ [⟨IKind.info, "🔄", Msg.recurring cat a.amount⟩])
  else acc

/-- The recurring-expense detector as the claim states it (without the
positive-amount guard): flag the forward pairs within index distance 4
passing claimRecCond, deduplicate by key, cap at 3, nothing below 4
expense records. -/
def specRecurringClaim (df : List Txn) : List Insight :=
  let e := sortByDate (expenses df)
  if e.length < 4 then []
  else (((recEvents e).foldl claimRecStep ([], [])).2).take 3

/-- The recurring-expense detector as the amended claim states it: as
specRecurringClaim but a pair is flagged only when the earlier amount is
positive. -/
def specRecurringAmended (df : List Txn) : List Insight :=
  let e := sortByDate (expenses df)
  if e.length < 4 then []
  else (((recEvents e).foldl amendedRecStep ([], [])).2).take 3

/-- Builds a transaction row with fixed payment method and empty memo. -/
def mkTx (i : Nat) (y m d : Nat) (ty : TxType) (a : ℚ) (c : String) : Txn :=
  ⟨i, ⟨y, m, d⟩, ty, a, c, "card", ""⟩

/-- C1 input: exactly 5 expense rows in one category, four of amount
10000 and one of amount 50000. -/
def tbl1 : List Txn :=
  [mkTx 1 2026 1 1 TxType.expense 10000 "dining",
   mkTx 2 2026 1 2 TxType.expense 10000 "dining",
   mkTx 3 2026 1 3 TxType.expense 10000 "dining",
   mkTx 4 2026 1 4 TxType.expense 10000 "dining",
   mkTx 5 2026 1 5 TxType.expense 50000 "dining"]

/-- The expense amounts of the C1 category. -/
def amts1 : List ℚ :=
  [10000, 10000, 10000, 10000, 50000]

/-- C2 input: one current-month expense of 500000. -/
def df2 : List Txn :=
  [mkTx 1 2026 10 5 TxType.expense 500000 "food"]

/-- C2 budgets: a whole-period budget of 400000 for 2026-10. -/
def budgets2 : List Budget :=
  [⟨202610, "", 400000⟩]

/-- An invocation date inside 2026-10. -/
def dOct : Date :=
  ⟨2026, 10, 12⟩

/-- A later invocation date inside the same month 2026-10. -/
def dOct2 : Date :=
  ⟨2026, 10, 20⟩

/-- An invocation date inside 2026-11. -/
def dNov : Date :=
  ⟨2026, 11, 12⟩

/-- C3 input as literally described: only the two subscription records,
amounts 9900 and 9900, dated 30 days apart. -/
def tbl3a : List Txn :=
  [mkTx 1 2026 1 1 TxType.expense 9900 "subscription",
   mkTx 2 2026 1 31 TxType.expense 9900 "subscription"]

/-- C3 input meeting the 4-record minimum: the two subscription records
plus two food records 1 day apart that trigger nothing. -/
def tbl3b : List Txn :=
  [mkTx 1 2026 1 1 TxType.expense 9900 "subscription",
   mkTx 2 2026 1 31 TxType.expense 9900 "subscription",
   mkTx 3 2026 1 5 TxType.expense 5000 "food",
   mkTx 4 2026 1 6 TxType.expense 5000 "food"]

/-- C3 input with the third subscription record 31 days after the
second. -/
def tbl3c : List Txn :=
  [mkTx 1 2026 1 1 TxType.expense 9900 "subscription",
   mkTx 2 2026 1 31 TxType.expense 9900 "subscription",
   mkTx 3 2026 1 5 TxType.expense 5000 "food",
   mkTx 4 2026 1 6 TxType.expense 5000 "food",
   mkTx 5 2026 3 3 TxType.expense 9900 "subscription"]

/-- A raw record with a well-formed date. -/
def rawOk : RawTx :=
  ⟨1, "2026-01-05", TxType.expense, 1000, "food", "card", ""⟩

/-- A raw record whose date cannot be parsed. -/
def rawBadDate : RawTx :=
  ⟨2, "not-a-date", TxType.expense, 1000, "food", "card", ""⟩

/-- C4 witness input: one good record and one with a malformed date. -/
def raws4 : List RawTx :=
  [rawOk, rawBadDate]

/-- C6 witness input: expense totals 100000 in 2026-01 and 130000 in
2026-02. -/
def df6 : List Txn :=
  [mkTx 1 2026 1 15 TxType.expense 100000 "food",
   mkTx 2 2026 2 15 TxType.expense 130000 "food"]

/-- C7 counterexample input: two zero-amount records of category a 30
days apart, plus two category-b records 1 day apart. -/
def tbl7 : List Txn :=
  [mkTx 1 2026 1 1 TxType.expense 0 "a",
   mkTx 2 2026 1 2 TxType.expense 1000 "b",
   mkTx 3 2026 1 3 TxType.expense 1000 "b",
   mkTx 4 2026 1 31 TxType.expense 0 "a"]

/-- C7 witness input: only 3 expense records. -/
def tblSmall : List Txn :=
  [mkTx 1 2026 1 1 TxType.expense 9900 "subscription",
   mkTx 2 2026 1 31 TxType.expense 9900 "subscription",
   mkTx 3 2026 3 2 TxType.expense 9900 "subscription"]

/-- C8 witness input: one income row and one expense row spanning 10
days. -/
def df8 : List Txn :=
  [mkTx 1 2026 1 1 TxType.income 1000 "salary",
   mkTx 2 2026 1 10 TxType.expense 500 "food"]

/-- mapOpt fails as soon as one element fails. -/
theorem mapOpt_eq_none {α β : Type} (f : α → Option β) (l : List α) (a : α)
    (ha : a ∈ l) (hf : f a = none) : mapOpt f l = none := by
  induction l with
  | nil => cases ha
  | cons b t ih =>
    rcases List.mem_cons.mp ha with h | h
    · subst h
      simp [mapOpt, hf]
    · unfold mapOpt
      cases hfb : f b with
      | none => rfl
      | some v => rw [ih h]

/-- C4: a record sequence containing an unparseable date fails the whole
table build with the data-format error, propagated to the caller; no
table (in particular none with partial or invalid rows) is produced. -/
theorem transactionsToDataframe_fails_on_bad_date (rs : List RawTx) (r : RawTx)
    (hr : r ∈ rs) (hbad : parseDate r.date = none) :
    transactionsToDataframe rs = Except.error DataFormatError.badDate := by
  have hnone : parseTxn r = none := by
    unfold parseTxn
    rw [hbad]
  unfold transactionsToDataframe
  rw [mapOpt_eq_none parseTxn rs r hr hnone]

/-- C4 witness: a concrete two-record input whose second date is
malformed is rejected as a whole. -/
theorem transactionsToDataframe_fails_on_bad_date_witness :
    rawBadDate ∈ raws4 ∧
      transactionsToDataframe raws4 = Except.error DataFormatError.badDate := by
  refine ⟨List.mem_cons_of_mem _ (List.mem_cons_self _ _), ?_⟩
  exact transactionsToDataframe_fails_on_bad_date raws4 rawBadDate
    (List.mem_cons_of_mem _ (List.mem_cons_self _ _)) (by decide)

/-- Helper for evaluation: the two transaction types differ. -/
theorem expense_ne_income : (TxType.expense = TxType.income) = False := by
  simp

/-- Helper for evaluation: the two transaction types differ. -/
theorem income_ne_expense : (TxType.income = TxType.expense) = False := by
  simp

/-- Helper for evaluation: distinct category names. -/
theorem ne_food_sub : (("food" : String) = "subscription") = False := by
  simp

/-- Helper for evaluation: distinct category names. -/
theorem ne_sub_food : (("subscription" : String) = "food") = False := by
  simp

/-- C1 counterexample: on the table of exactly 5 one-category expense
rows, four of amount 10000 and one of 50000, the outlier rule does not
emit exactly one insight (it emits none): with mean 18000 the sample
standard deviation is about 17888.5, so 50000 does not exceed
mean + 2 * stddev, roughly 53777. -/
theorem outlier_example_counterexample : (outlierInsights tbl1).length ≠ 1 := by
  have h : outlierInsights tbl1 = [] := by
    norm_num [outlierInsights, tbl1, mkTx, expenses, expense_ne_income, uniqueFirst, uniqueAux,
      meanQ, sampleVar, outlierCond, sumA]
  rw [h]
  simp

/-- C1 amended: on that table the outlier rule emits no outlier insight:
the 50000 transaction is at least twice the category mean of 18000, but
its amount does not exceed mean + 2 * stddev of the category (sample
variance 320000000, threshold about 53777.1), so the conjunction the rule
tests fails. -/
theorem outlier_example_amended : outlierInsights tbl1 = [] ∧
    ¬ outlierCond 50000 (meanQ amts1) (sampleVar amts1) ∧
    2 * meanQ amts1 ≤ 50000 := by
  refine ⟨?_, ?_, ?_⟩
  · norm_num [outlierInsights, tbl1, mkTx, expenses, expense_ne_income, uniqueFirst, uniqueAux,
      meanQ, sampleVar, outlierCond, sumA]
  · norm_num [outlierCond, meanQ, sampleVar, amts1]
  · norm_num [meanQ, amts1]

/-- C2 counterexample: generate_insights is not a function of the record
set and budget list alone: with the same one-expense table and the same
budget for 2026-10, an invocation dated inside 2026-10 reports a budget
overrun and an invocation dated inside 2026-11 does not, because the
budget rule reads the ambient current date. -/
theorem generateInsights_depends_on_today :
    generateInsights df2 budgets2 dOct ≠ generateInsights df2 budgets2 dNov := by
  have h1 : generateInsights df2 budgets2 dOct =
      [⟨IKind.info, "📊", Msg.topCategory "food" 100 500000⟩,
       ⟨IKind.warning, "🚨", Msg.budgetExceeded none 400000 500000 125⟩] := by
    norm_num [generateInsights, topCategoryInsight, getSummary, monthComparisonInsight,
      sortedMonths, budgetWarningInsights, budgetWarningYM, budgetOne, budgetLabel,
      outlierInsights, recurringInsights, savingsInsight, sortByDate,
      df2, budgets2, dOct, mkTx, expenses, incomes, sumA, topCats, uniqueFirst, uniqueAux,
      spanDays, dayNumber, daysBeforeMonth, monthOffset, isLeap, ymT, ymD,
      expense_ne_income, income_ne_expense,
      List.insertionSort, List.orderedInsert, charListLe, List.dedup]
  have h2 : generateInsights df2 budgets2 dNov =
      [⟨IKind.info, "📊", Msg.topCategory "food" 100 500000⟩] := by
    norm_num [generateInsights, topCategoryInsight, getSummary, monthComparisonInsight,
      sortedMonths, budgetWarningInsights, budgetWarningYM, budgetOne, budgetLabel,
      outlierInsights, recurringInsights, savingsInsight, sortByDate,
      df2, budgets2, dNov, mkTx, expenses, incomes, sumA, topCats, uniqueFirst, uniqueAux,
      spanDays, dayNumber, daysBeforeMonth, monthOffset, isLeap, ymT, ymD,
      expense_ne_income, income_ne_expense,
      List.insertionSort, List.orderedInsert, charListLe, List.dedup]
  rw [h1, h2]
  simp

/-- C2 amended: generate_insights is a deterministic function of the
record set, the budget list and the current date, and depends on the
current date only through its calendar year-month: two invocations with
the same arguments whose dates fall in the same calendar month return the
identical insight list. -/
theorem generateInsights_month_determined (df : List Txn) (budgets : List Budget)
    (t1 t2 : Date) (hy : t1.year = t2.year) (hm : t1.month = t2.month) :
    generateInsights df budgets t1 = generateInsights df budgets t2 := by
  have h : ymD t1 = ymD t2 := by
    unfold ymD
    rw [hy, hm]
  unfold generateInsights budgetWarningInsights
  rw [h]

/-- C2 witness: two invocations dated 2026-10-12 and 2026-10-20 agree on
the concrete table and budget list. -/
theorem generateInsights_month_determined_witness :
    generateInsights df2 budgets2 dOct = generateInsights df2 budgets2 dOct2 :=
  generateInsights_month_determined df2 budgets2 dOct dOct2 rfl rfl

/-- C3 counterexample: on the table holding only the two subscription
records of amount 9900 dated 30 days apart, the recurring-expense
detector does not emit exactly one insight: it emits none, because the
rule requires at least 4 expense records overall. -/
theorem recurring_example_counterexample : (recurringInsights tbl3a).length ≠ 1 := by
  have h : recurringInsights tbl3a = [] := by
    norm_num [recurringInsights, tbl3a, mkTx, expenses, expense_ne_income, sortByDate,
      List.insertionSort, List.orderedInsert, dayNumber, daysBeforeMonth, monthOffset, isLeap]
  rw [h]
  simp

/-- C3 amended: with only the two described subscription records the
detector returns nothing (the 4-record minimum); in a table containing
them together with two unrelated food records (meeting the minimum and
recurring nothing themselves), exactly one recurrence insight for the
subscription category is emitted, and adding a third 9900 subscription
record dated 31 days after the second still yields exactly that one
insight, since the pair shares the category and rounded-amount
deduplication key. -/
theorem recurring_example_amended : recurringInsights tbl3a = [] ∧
    recurringInsights tbl3b = [⟨IKind.info, "🔄", Msg.recurring "subscription" 9900⟩] ∧
    recurringInsights tbl3c = [⟨IKind.info, "🔄", Msg.recurring "subscription" 9900⟩] := by
  refine ⟨?_, ?_, ?_⟩
  · norm_num [recurringInsights, tbl3a, mkTx, expenses, expense_ne_income, sortByDate,
      List.insertionSort, List.orderedInsert, dayNumber, daysBeforeMonth, monthOffset, isLeap]
  · norm_num [recurringInsights, tbl3b, mkTx, expenses, expense_ne_income, sortByDate,
      List.insertionSort, List.orderedInsert, dayNumber, daysBeforeMonth, monthOffset, isLeap,
      recEvents, uniqueFirst, uniqueAux, forwardPairs, recStep, recCond, recKey, gapDays,
      ne_food_sub, ne_sub_food]
  · norm_num [recurringInsights, tbl3c, mkTx, expenses, expense_ne_income, sortByDate,
      List.insertionSort, List.orderedInsert, dayNumber, daysBeforeMonth, monthOffset, isLeap,
      recEvents, uniqueFirst, uniqueAux, forwardPairs, recStep, recCond, recKey, gapDays,
      ne_food_sub, ne_sub_food]

/-- The budget loop emits nothing when there are no current-month
expense rows. -/
theorem budgetOne_nil (cm : Nat) (b : Budget) : budgetOne [] cm b = [] := by
  unfold budgetOne
  by_cases hm : b.month ≠ cm
  · simp [hm]
  · norm_num [hm, sumA, zero_div]

/-- The per-budget body of the code equals the claim-side rule. -/
theorem specBudgetRule_eq (df : List Txn) (today : Date) (b : Budget) :
    specBudgetRule df today b =
      budgetOne ((expenses df).filter (fun t => decide (ymT t = ymD today))) (ymD today) b := by
  unfold specBudgetRule budgetOne
  by_cases hm : b.month = ymD today
  · by_cases hc : b.category = ""
    · by_cases ha : 0 < b.budget_amount
      · simp [hm, hc, ha, not_le.mpr ha]
      · simp [hm, hc, ha, not_lt.mp ha]
    · by_cases ha : 0 < b.budget_amount
      · simp [hm, hc, ha, not_le.mpr ha]
      · simp [hm, hc, ha, not_lt.mp ha]
  · simp [hm]

/-- C5: the budget rule behaves exactly as specified on every budget of
the list: each current-month budget contributes the exceeded warning when
usage reaches 100 percent, the approaching warning when it reaches 80
percent, and nothing below that, with spent restricted to its category
(whole total for an empty category) and usage 0 for a nonpositive budget
amount; budgets of other months contribute nothing. -/
theorem budget_rule_refines_spec (df : List Txn) (budgets : List Budget) (today : Date) :
    budgetWarningInsights df budgets today = budgets.flatMap (specBudgetRule df today) := by
  have hfun : specBudgetRule df today =
      budgetOne ((expenses df).filter (fun t => decide (ymT t = ymD today))) (ymD today) :=
    funext (specBudgetRule_eq df today)
  rw [hfun]
  unfold budgetWarningInsights budgetWarningYM
  by_cases he : (expenses df).isEmpty
  · have h0 : expenses df = [] := List.isEmpty_iff.mp he
    simp [he, h0, List.flatMap_eq_nil_iff, budgetOne_nil]
  · by_cases hb : budgets.isEmpty
    · have h0 : budgets = [] := List.isEmpty_iff.mp hb
      simp [he, hb, h0]
    · by_cases hc : ((expenses df).filter (fun t => decide (ymT t = ymD today))).isEmpty
      · have h0 : (expenses df).filter (fun t => decide (ymT t = ymD today)) = [] :=
          List.isEmpty_iff.mp hc
        simp [he, hb, hc, h0, List.flatMap_eq_nil_iff, budgetOne_nil]
      · simp [he, hb, hc]

/-- A table without expense rows has no expense months. -/
theorem sortedMonths_nil_of_no_expenses (df : List Txn) (h : expenses df = []) :
    sortedMonths df = [] := by
  simp [sortedMonths, h, List.insertionSort]

/-- C6: when the expense rows span at least two distinct year-months
(the last two in ascending order being pm then cm) and the previous
total is positive, the month-over-month rule emits exactly the one
insight prescribed by the claim: change_pct is
(current - previous) / previous * 100 and the kind is warning above 20,
success below -10, info otherwise; with fewer than two expense months, or
a zero previous total, it emits nothing. -/
theorem month_comparison_ok (df : List Txn) :
    ((sortedMonths df).length < 2 → monthComparisonInsight df = []) ∧
    (∀ cm pm rest, (sortedMonths df).reverse = cm :: pm :: rest →
      ((monthTotal df pm = 0 → monthComparisonInsight df = []) ∧
       (0 < monthTotal df pm → monthComparisonInsight df = [specMonthInsight df pm cm]))) := by
  constructor
  · intro hlen
    unfold monthComparisonInsight
    by_cases he : (expenses df).isEmpty
    · simp [he]
    · rw [if_neg he]
      rcases hr : (sortedMonths df).reverse with _ | ⟨a, _ | ⟨b, t⟩⟩
      · simp
      · simp
      · exfalso
        have hlr : (sortedMonths df).length = (sortedMonths df).reverse.length := by
          rw [List.length_reverse]
        rw [hr] at hlr
        simp at hlr
        omega
  · intro cm pm rest hrev
    have he : ¬ (expenses df).isEmpty := by
      intro he
      rw [sortedMonths_nil_of_no_expenses df (List.isEmpty_iff.mp he)] at hrev
      simp at hrev
    constructor
    · intro hz
      unfold monthComparisonInsight
      rw [if_neg he, hrev]
      simp [hz]
    · intro hpos
      unfold monthComparisonInsight
      rw [if_neg he, hrev]
      simp only [if_pos hpos]
      simp only [specMonthInsight]
      split_ifs <;> rfl

/-- C6 witness: with expense totals 100000 in 2026-01 and 130000 in
2026-02, the rule emits exactly the 30 percent warning insight. -/
theorem month_comparison_ok_witness :
    (sortedMonths df6).reverse = [202602, 202601] ∧
    specMonthInsight df6 202601 202602 =
      ⟨IKind.warning, "📈", Msg.monthIncrease 202602 30 100000 130000⟩ ∧
    monthComparisonInsight df6 = [specMonthInsight df6 202601 202602] := by
  refine ⟨by decide, ?_, ?_⟩
  · norm_num [specMonthInsight, monthTotal, sumA, expenses, df6, mkTx, ymT, ymD,
      expense_ne_income]
  · exact ((month_comparison_ok df6).2 202602 202601 [] (by decide)).2
      (by norm_num [monthTotal, sumA, expenses, df6, mkTx, ymT, ymD, expense_ne_income])

/-- Helper for evaluation: distinct category names. -/
theorem ne_a_b : (("a" : String) = "b") = False := by
  simp

/-- Helper for evaluation: distinct category names. -/
theorem ne_b_a : (("b" : String) = "a") = False := by
  simp

/-- For a positive earlier amount, the relative-difference test of the
code agrees with the absolute form of the claim. -/
theorem recCond_iff_amended (a b : Txn) : recCond a b ↔ amendedRecCond a b := by
  unfold recCond amendedRecCond
  constructor
  · rintro ⟨h1, h2, h3⟩
    refine ⟨h1, ?_, h3⟩
    have := (div_le_iff₀ h1).mp h2
    linarith
  · rintro ⟨h1, h2, h3⟩
    refine ⟨h1, ?_, h3⟩
    rw [div_le_iff₀ h1]
    linarith

/-- The scan steps of the code and of the amended claim coincide. -/
theorem recStep_eq_amended : recStep = amendedRecStep := by
  funext acc ev
  rcases ev with ⟨cat, a, b⟩
  unfold recStep amendedRecStep
  exact if_congr (recCond_iff_amended a b) rfl rfl

/-- C7 counterexample: on the table with two zero-amount category-a rows
30 days apart (plus two unrelated rows meeting the 4-record minimum),
the detector as the claim words it flags the zero pair, whose amount
difference 0 is within 20 percent of the earlier amount 0, but the code
flags nothing, because its guard requires a positive earlier amount. -/
theorem recurring_claim_counterexample : recurringInsights tbl7 ≠ specRecurringClaim tbl7 := by
  have h1 : recurringInsights tbl7 = [] := by
    norm_num [recurringInsights, tbl7, mkTx, expenses, expense_ne_income, sortByDate,
      List.insertionSort, List.orderedInsert, dayNumber, daysBeforeMonth, monthOffset, isLeap,
      recEvents, uniqueFirst, uniqueAux, forwardPairs, recStep, recCond, recKey, gapDays,
      ne_a_b, ne_b_a]
  have h2 : specRecurringClaim tbl7 = [⟨IKind.info, "🔄", Msg.recurring "a" 0⟩] := by
    norm_num [specRecurringClaim, tbl7, mkTx, expenses, expense_ne_income, sortByDate,
      List.insertionSort, List.orderedInsert, dayNumber, daysBeforeMonth, monthOffset, isLeap,
      recEvents, uniqueFirst, uniqueAux, forwardPairs, claimRecStep, claimRecCond, recKey, gapDays,
      ne_a_b, ne_b_a]
  rw [h1, h2]
  simp

/-- C7 amended: the recurring-expense detector flags exactly the forward
pairs within index distance 4 whose earlier amount is positive, whose
amount difference is within 20 percent of the earlier amount, and whose
day gap lies in the inclusive range 25 to 35; it deduplicates flagged
pairs by category and earlier amount floored to the nearest 1000, caps
the result at 3 insights, and returns none below 4 expense records. -/
theorem recurring_detector_ok (df : List Txn) :
    recurringInsights df = specRecurringAmended df ∧
    (recurringInsights df).length ≤ 3 ∧
    ((expenses df).length < 4 → recurringInsights df = []) := by
  refine ⟨?_, ?_, ?_⟩
  · unfold recurringInsights specRecurringAmended
    rw [recStep_eq_amended]
  · unfold recurringInsights
    by_cases h : (sortByDate (expenses df)).length < 4
    · simp [h]
    · simp only [if_neg h]
      simp [List.length_take]
  · intro hlen
    unfold recurringInsights
    have hs : (sortByDate (expenses df)).length = (expenses df).length :=
      (List.perm_insertionSort _ _).length_eq
    rw [if_pos (by omega)]

/-- C7 witness: a concrete 3-expense-record table is below the minimum
and the detector returns nothing on it. -/
theorem recurring_detector_ok_witness :
    (expenses tblSmall).length < 4 ∧ recurringInsights tblSmall = [] :=
  ⟨by decide, (recurring_detector_ok tblSmall).2.2 (by decide)⟩

/-- C8: on every non-empty table, get_summary computes the daily average
expense as total expense over the inclusive day span between the earliest
and latest transaction date of the whole table (all types), with the
divisor floored to 1; when there are no expense rows it returns daily
average 0 and an empty top-category list. -/
theorem get_summary_ok (df : List Txn) (h : df ≠ []) :
    ((getSummary df).expense_count = 0 →
      (getSummary df).daily_avg_expense = 0 ∧ (getSummary df).top_categories = []) ∧
    ((getSummary df).expense_count ≠ 0 →
      (getSummary df).daily_avg_expense =
        (getSummary df).total_expense / ((max (spanDays df) 1 : Int) : ℚ)) := by
  have hne : df.isEmpty = false := by
    simpa [List.isEmpty_iff] using h
  by_cases he : (expenses df).isEmpty
  · constructor
    · intro _
      simp [getSummary, hne, he]
    · intro hno
      exfalso
      apply hno
      simp [getSummary, hne, List.isEmpty_iff.mp he]
  · have he' : expenses df ≠ [] := by
      simpa [List.isEmpty_iff] using he
    constructor
    · intro h0
      exfalso
      have hl : (expenses df).length = 0 := by
        simpa [getSummary, hne] using h0
      exact he' (List.length_eq_zero.mp hl)
    · intro _
      simp [getSummary, hne, he]

/-- C8 witness: the two-row table spanning 10 days instantiates the
daily-average formula. -/
theorem get_summary_ok_witness :
    df8 ≠ [] ∧ (getSummary df8).expense_count ≠ 0 ∧
    (getSummary df8).daily_avg_expense =
      (getSummary df8).total_expense / ((max (spanDays df8) 1 : Int) : ℚ) :=
  ⟨by decide, by decide, (get_summary_ok df8 (by decide)).2 (by decide)⟩

/-- Every insight accumulated by the recurrence scan carries a positive
amount, since the scan only flags pairs passing the positive-amount
guard. -/
theorem recP_foldl (evs : List (String × Txn × Txn))
    (acc : List (String × Int) × List Insight)
    (hacc : ∀ i ∈ acc.2, ∀ cat amt, i.msg = Msg.recurring cat amt → 0 < amt) :
    ∀ i ∈ (evs.foldl recStep acc).2, ∀ cat amt, i.msg = Msg.recurring cat amt → 0 < amt := by
  induction evs generalizing acc with
  | nil => exact hacc
  | cons ev t ih =>
    rcases ev with ⟨cat0, a, b⟩
    refine ih _ ?_
    unfold recStep
    by_cases hc : recCond a b
    · simp only [if_pos hc]
      by_cases hk : recKey cat0 a.amount ∈ acc.1
      · simp only [if_pos hk]
        exact hacc
      · simp only [if_neg hk]
        intro i hi cat amt hmsg
        rcases List.mem_append.mp hi with hmem | hmem
        · exact hacc i hmem cat amt hmsg
        · have hieq : i = ⟨IKind.info, "🔄", Msg.recurring cat0 a.amount⟩ :=
            List.mem_singleton.mp hmem
          rw [hieq] at hmsg
          have hamt : amt = a.amount := by
            cases hmsg
            rfl
          rw [hamt]
          exact hc.1
    · simp only [if_neg hc]
      exact hacc

/-- C10: the recurring-expense detector never reports a zero-amount row
as the earlier member of a recurrence: the guard on a positive earlier
amount runs before the relative difference is formed, so every emitted
recurrence insight carries a positive amount, on all inputs including
zero amounts. -/
theorem recurring_amount_pos (df : List Txn) (i : Insight)
    (hi : i ∈ recurringInsights df) (cat : String) (amt : ℚ)
    (hmsg : i.msg = Msg.recurring cat amt) : 0 < amt := by
  unfold recurringInsights at hi
  by_cases hlen : (sortByDate (expenses df)).length < 4
  · rw [if_pos hlen] at hi
    cases hi
  · rw [if_neg hlen] at hi
    exact recP_foldl _ ([], []) (by simp) i (List.take_subset 3 _ hi) cat amt hmsg

/-- C10 witness: the concrete subscription recurrence insight is in the
output of the detector and its amount is positive. -/
theorem recurring_amount_pos_witness :
    (⟨IKind.info, "🔄", Msg.recurring "subscription" 9900⟩ : Insight) ∈ recurringInsights tbl3b ∧
    (0 : ℚ) < 9900 := by
  have hmem : (⟨IKind.info, "🔄", Msg.recurring "subscription" 9900⟩ : Insight) ∈
      recurringInsights tbl3b := by
    have h : recurringInsights tbl3b = [⟨IKind.info, "🔄", Msg.recurring "subscription" 9900⟩] := by
      norm_num [recurringInsights, tbl3b, mkTx, expenses, expense_ne_income, sortByDate,
        List.insertionSort, List.orderedInsert, dayNumber, daysBeforeMonth, monthOffset, isLeap,
        recEvents, uniqueFirst, uniqueAux, forwardPairs, recStep, recCond, recKey, gapDays,
        ne_food_sub, ne_sub_food]
    rw [h]
    exact List.mem_singleton_self _
  exact ⟨hmem,
    recurring_amount_pos tbl3b ⟨IKind.info, "🔄", Msg.recurring "subscription" 9900⟩ hmem
      "subscription" 9900 rfl⟩

/-- Inserting into a key-sorted list of key-value pairs mirrors inserting
the key, when values are a function of the key. -/
theorem orderedInsert_map_fst (f : Nat → Nat × ℚ) (hf : ∀ a, (f a).1 = a) (a : Nat)
    (l : List Nat) :
    List.orderedInsert (fun x y : Nat × ℚ => x.1 ≤ y.1) (f a) (l.map f) =
      (List.orderedInsert (fun x y : Nat => x ≤ y) a l).map f := by
  induction l with
  | nil => rfl
  | cons b t ih =>
    simp only [List.map_cons, List.orderedInsert, hf]
    by_cases hab : a ≤ b
    · simp [hab]
    · simp [hab, ih]

/-- Sorting key-value pairs by key mirrors sorting the keys. -/
theorem insertionSort_map_fst (f : Nat → Nat × ℚ) (hf : ∀ a, (f a).1 = a) (l : List Nat) :
    List.insertionSort (fun x y : Nat × ℚ => x.1 ≤ y.1) (l.map f) =
      (List.insertionSort (fun x y : Nat => x ≤ y) l).map f := by
  induction l with
  | nil => rfl
  | cons a t ih =>
    simp only [List.map_cons, List.insertionSort, ih, orderedInsert_map_fst f hf]

/-- Sorting the weekdays kept from the alphabetical group order yields
the same weekdays kept from Monday-to-Sunday order. -/
theorem sort_alpha_filter (p : Nat → Bool) :
    List.insertionSort (fun x y : Nat => x ≤ y) (alphaDayOrder.filter p) =
      (List.range 7).filter p := by
  have hperm : (List.insertionSort (fun x y : Nat => x ≤ y) (alphaDayOrder.filter p)).Perm
      ((List.range 7).filter p) :=
    (List.perm_insertionSort _ _).trans
      ((by decide : alphaDayOrder.Perm (List.range 7)).filter p)
  refine List.eq_of_perm_of_sorted hperm (List.sorted_insertionSort _ _) ?_
  exact (List.Pairwise.sublist (List.filter_sublist _) (List.pairwise_lt_range 7)).imp le_of_lt

/-- Filtering then mapping is a filterMap. -/
theorem filter_map_eq_filterMap (p : Nat → Bool) (f : Nat → Nat × ℚ) (l : List Nat) :
    (l.filter p).map f = l.filterMap (fun w => if p w then some (f w) else none) := by
  induction l with
  | nil => rfl
  | cons a t ih =>
    by_cases hp : p a
    · simp [List.filter_cons, hp, ih]
    · simp [List.filter_cons, hp, ih]

/-- filterMap respects pointwise equality on the list. -/
theorem filterMap_congr_on (f g : Nat → Option (Nat × ℚ)) (l : List Nat)
    (h : ∀ a ∈ l, f a = g a) : l.filterMap f = l.filterMap g := by
  induction l with
  | nil => rfl
  | cons a t ih =>
    rw [List.filterMap_cons, List.filterMap_cons, h a (List.mem_cons_self a t),
      ih (fun b hb => h b (List.mem_cons_of_mem a hb))]

/-- C9: for every table, the weekday aggregation returns the mean (not
the sum) expense amount per weekday, one row per weekday that carries at
least one expense row, ordered Monday through Sunday, weekdays without
expense rows omitted; in particular an expense-free table yields the
empty result. -/
theorem weekday_rows_ok (df : List Txn) :
    getExpenseByDayofweek df = specWeekdayRows df := by
  unfold getExpenseByDayofweek specWeekdayRows
  by_cases he : (expenses df).isEmpty
  · rw [if_pos he, List.isEmpty_iff.mp he]
    rfl
  · rw [if_neg he]
    have step1 := insertionSort_map_fst
      (fun w => (w, weekdayMean (expenses df) w)) (fun _ => rfl)
      (alphaDayOrder.filter
        (fun w => !((expenses df).filter (fun t => decide (wday t.date = w))).isEmpty))
    rw [step1, sort_alpha_filter, filter_map_eq_filterMap]
    refine filterMap_congr_on _ _ _ (fun w _ => ?_)
    by_cases hw : ((expenses df).filter (fun t => decide (wday t.date = w))).isEmpty
    · simp [hw]
    · simp [hw, weekdayMean]
